import Mathlib

/-!
Shallow embedding of the short-video-maker wrapper classes
(`Remotion`, `FFMpeg`, `Whisper`, `Kokoro`) and proofs about them.

External engines (the Remotion renderer, ffmpeg, the whisper transcription
script, the ONNX inference session) are modelled as oracles: functions or
`Except` values supplied through an environment record.  The wrapper control
flow — try/catch branches, fallbacks, argument forwarding — is translated
from the TypeScript source into total Lean functions over those oracles.
JavaScript numbers that the code only ever floors or compares are modelled
as `ℕ`; audio samples and timestamps are modelled as `ℚ`.
-/

namespace SVM

/-- Boolean infix test on lists of characters, used to model
JavaScript `String.prototype.includes`. -/
def listContains (hay needle : List Char) : Bool :=
  match hay with
  | [] => needle.isEmpty
  | _ :: t => needle.isPrefixOf hay || listContains t needle

/-- Model of `hay.includes(needle)` on JavaScript strings. -/
def strContains (hay needle : String) : Bool :=
  listContains hay.toList needle.toList

/-- Model of JavaScript `Math.round` on a rational: floor of `x + 1/2`
(nearest integer, ties towards positive infinity). -/
def jsRound (x : ℚ) : ℤ := ⌊x + 1/2⌋

/-- Model of JavaScript truncation towards zero (the `ToIntegerOrInfinity`
conversion applied by `DataView.setInt16`). -/
def jsTrunc (x : ℚ) : ℤ := if 0 ≤ x then ⌊x⌋ else ⌈x⌉

/-! ## Remotion wrapper (src/short-creator/libraries/Remotion.ts) -/

/-- The configuration fields the `Remotion` wrapper reads. -/
structure Config where
  runningInDocker : Bool
  concurrency : ℕ
  videoCacheSizeInBytes : ℕ
  videosDirPath : String
  deriving Repr, DecidableEq

/-- The argument record of one `renderMedia` invocation, restricted to the
fields the claims are about. -/
structure RenderCall where
  codec : String
  composition : String
  serveUrl : String
  outputLocation : String
  concurrency : ℕ
  offthreadVideoCacheSizeInBytes : ℕ
  deriving Repr, DecidableEq

/-- The `Remotion` wrapper instance: the bundle URL and the config. -/
structure Remotion where
  bundled : String
  config : Config
  deriving Repr, DecidableEq

/-- Outcomes of the external steps taken by `Remotion.init`: the GPU-setup
shell commands (npm install, version check, env export) and `bundle`. -/
structure RemotionInitEnv where
  gpuSetup : Except String Unit
  bundleResult : Except String String

/-- The try/catch around the GPU-setup block in `Remotion.init`: when not
running in Docker the shell commands run, and any error is caught and
logged as a warning — the outcome is `ok` either way. -/
def Remotion.gpuSetupOutcome (config : Config) (env : RemotionInitEnv) :
    Except String Unit :=
  if config.runningInDocker then Except.ok () else
    match env.gpuSetup with
    | Except.ok _ => Except.ok ()
    | Except.error _ => Except.ok ()

/-- `Remotion.init`: runs the (error-swallowing) GPU setup, then `bundle`;
a `bundle` failure propagates, a GPU-setup failure does not. -/
def Remotion.init (config : Config) (env : RemotionInitEnv) :
    Except String Remotion :=
  match Remotion.gpuSetupOutcome config env with
  | Except.error e => Except.error e
  | Except.ok _ =>
    match env.bundleResult with
    | Except.error e => Except.error e
    | Except.ok bundled => Except.ok ⟨bundled, config⟩

/-- The `renderMedia` argument record built by the GPU path of
`Remotion.render`. -/
def Remotion.gpuRenderCall (r : Remotion) (composition outputLocation : String) :
    RenderCall :=
  { codec := "h264"
    composition := composition
    serveUrl := r.bundled
    outputLocation := outputLocation
    concurrency := r.config.concurrency
    offthreadVideoCacheSizeInBytes := r.config.videoCacheSizeInBytes }

/-- The `renderMedia` argument record built by `Remotion.fallbackCPURender`:
same composition and output location, `max(1, ⌊concurrency / 2⌋)` workers and
half the off-thread video cache. -/
def Remotion.fallbackCPURender (r : Remotion) (composition outputLocation : String) :
    RenderCall :=
  { codec := "h264"
    composition := composition
    serveUrl := r.bundled
    outputLocation := outputLocation
    concurrency := max 1 (r.config.concurrency / 2)
    offthreadVideoCacheSizeInBytes := r.config.videoCacheSizeInBytes / 2 }

/-- `Remotion.render`, returning the trace of `renderMedia` invocations and
the overall outcome.  The GPU attempt comes first; on error the CPU fallback
runs (its own error propagates). -/
def Remotion.render (r : Remotion) (composition id : String)
    (renderMedia : RenderCall → Except String Unit) :
    List RenderCall × Except String Unit :=
  let outputLocation := r.config.videosDirPath ++ "/" ++ id ++ ".mp4"
  let gpuCall := r.gpuRenderCall composition outputLocation
  match renderMedia gpuCall with
  | Except.ok _ => ([gpuCall], Except.ok ())
  | Except.error _ =>
    let cpuCall := r.fallbackCPURender composition outputLocation
    ([gpuCall, cpuCall], renderMedia cpuCall)

/-! ## FFMpeg wrapper (src/short-creator/libraries/FFmpeg.ts) -/

/-- Outcomes of the external steps taken by `FFMpeg.init`: the
dynamic import of the ffmpeg installer, the `nvidia-smi` GPU probe and the
`ffmpeg -codecs` listing (each `execSync` may throw). -/
structure FFmpegInitEnv where
  installerPath : Except String String
  nvidiaProbe : Except String String
  codecsProbe : Except String String

/-- The `FFMpeg` wrapper instance, carrying the (static) GPU flag. -/
structure FFMpeg where
  gpuAccelerated : Bool
  deriving Repr, DecidableEq

/-- The value of the `gpuAccelerated` flag after the try/catch block of
`FFMpeg.init`.  The flag starts `false`; if the nvidia probe output contains
`T4` the flag is set `true` before the codecs probe runs, and is reset to
`false` only when that probe succeeds without listing `nvenc`.  A thrown
probe is caught and merely logged, leaving the flag as it was at the throw
point. -/
def FFMpeg.initFlag (env : FFmpegInitEnv) : Bool :=
  match env.nvidiaProbe with
  | Except.error _ => false
  | Except.ok nvidiaCheck =>
    if strContains nvidiaCheck "T4" then
      match env.codecsProbe with
      | Except.error _ => true
      | Except.ok codecs => if strContains codecs "nvenc" then true else false
    else false

/-- `FFMpeg.init`: the import failure propagates; everything inside the
GPU-detection try/catch is swallowed, so init otherwise always resolves. -/
def FFMpeg.init (env : FFmpegInitEnv) : Except String FFMpeg :=
  match env.installerPath with
  | Except.error e => Except.error e
  | Except.ok _ => Except.ok ⟨FFMpeg.initFlag env⟩

/-- The fluent-ffmpeg option record built by the audio methods, restricted
to the fields the wrapper sets. -/
structure AudioCommand where
  gpuOptions : Bool
  audioCodec : String
  audioChannels : ℕ
  audioFrequency : Option ℕ
  audioBitrate : Option ℕ
  format : String
  deriving Repr, DecidableEq

/-- The command built by `FFMpeg.saveNormalizedAudio`: mono 16 kHz pcm wav,
with CUDA options when the GPU flag is set. -/
def FFMpeg.normalizeCommand (f : FFMpeg) : AudioCommand :=
  { gpuOptions := f.gpuAccelerated
    audioCodec := "pcm_s16le"
    audioChannels := 1
    audioFrequency := some 16000
    audioBitrate := none
    format := "wav" }

/-- The command built by `FFMpeg.saveToMp3`: stereo 128k mp3, with CUDA
options when the GPU flag is set. -/
def FFMpeg.mp3Command (f : FFMpeg) : AudioCommand :=
  { gpuOptions := f.gpuAccelerated
    audioCodec := "libmp3lame"
    audioChannels := 2
    audioFrequency := none
    audioBitrate := some 128
    format := "mp3" }

/-- `FFMpeg.saveNormalizedAudio`: the promise resolves with the
`outputPath` argument on the `end` event and rejects with the engine's
error on the `error` event. -/
def FFMpeg.saveNormalizedAudio (f : FFMpeg) (outputPath : String)
    (engine : AudioCommand → String → Except String Unit) :
    Except String String :=
  match engine f.normalizeCommand outputPath with
  | Except.ok _ => Except.ok outputPath
  | Except.error e => Except.error e

/-- `FFMpeg.saveToMp3`: the promise resolves with the `filePath` argument
on the `end` event and rejects with the engine's error otherwise. -/
def FFMpeg.saveToMp3 (f : FFMpeg) (filePath : String)
    (engine : AudioCommand → String → Except String Unit) :
    Except String String :=
  match engine f.mp3Command filePath with
  | Except.ok _ => Except.ok filePath
  | Except.error e => Except.error e

/-! ## Whisper wrapper (src/short-creator/libraries/Whisper.ts) -/

/-- A word record emitted by the embedded transcription script: text plus
start/end times already converted to milliseconds (floats). -/
structure Word where
  text : String
  start : ℚ
  «end» : ℚ
  deriving Repr, DecidableEq

/-- The caption record built by `Whisper.CreateCaption`. -/
structure Caption where
  text : String
  startMs : ℤ
  endMs : ℤ
  deriving Repr, DecidableEq

/-- Outcomes of the external steps of `Whisper.CreateCaption`: writing the
temporary python script, and running it (execution plus JSON parse of its
stdout, yielding the word list). -/
structure WhisperEnv where
  writeScript : Except String Unit
  execScript : Except String (List Word)

/-- The per-word conversion of `Whisper.CreateCaption`: text passed through
unchanged, times rounded with `Math.round`. -/
def wordToCaption (w : Word) : Caption :=
  { text := w.text, startMs := jsRound w.start, endMs := jsRound w.«end» }

/-- `Whisper.CreateCaption`: writes the script, runs it, maps each word to
a caption; any error is logged and rethrown. -/
def Whisper.CreateCaption (env : WhisperEnv) : Except String (List Caption) :=
  match env.writeScript with
  | Except.error e => Except.error e
  | Except.ok _ =>
    match env.execScript with
    | Except.error e => Except.error e
    | Except.ok words => Except.ok (words.map wordToCaption)

/-! ## Kokoro wrapper (src/unnamed/part_000, part_001) -/

/-- The path constants of the Kokoro module. -/
def MODEL_FILE : String := "models/Kokoro-82M-v1.0/model.onnx"

/-- The config.json path constant of the Kokoro module. -/
def CONFIG_FILE : String := "models/Kokoro-82M-v1.0/config.json"

/-- The parsed model config; `sample_rate` is `none` when the JSON field is
absent (so the JavaScript truthiness test `!config.sample_rate` also fails
on an explicit 0). -/
structure KConfig where
  sample_rate : Option ℚ
  deriving Repr, DecidableEq

/-- JavaScript truthiness of `config.sample_rate`. -/
def KConfig.hasSampleRate (c : KConfig) : Bool :=
  match c.sample_rate with
  | none => false
  | some r => decide (r ≠ 0)

/-- The sample-rate value `this.config.sample_rate` evaluates to inside
`generate` (0 stands for the absent/falsy case, which `init` rules out). -/
def KConfig.sampleRateVal (c : KConfig) : ℚ := c.sample_rate.getD 0

/-- The long CUDA-unavailable message thrown by `Kokoro.init`. -/
def cudaUnavailableMsg : String := "CUDA not available. Check:..."

/-- Outcomes of the external steps of `Kokoro.init`: the two npm install
attempts, the filesystem probes, the config read+parse, the ONNX provider
listing and the session creation (sessions are opaque, modelled by `ℕ`). -/
structure KokoroInitEnv where
  installLocal : Except String Unit
  installGlobal : Except String Unit
  modelDirExists : Bool
  mkdirModels : Except String Unit
  modelFileExists : Bool
  configFileExists : Bool
  readConfig : Except String KConfig
  providers : Except String (List String)
  createSession : Except String ℕ

/-- The `Kokoro` wrapper instance: the ONNX session and the parsed config. -/
structure Kokoro where
  session : ℕ
  config : KConfig
  deriving Repr, DecidableEq

/-- The body of `Kokoro.init`'s try block: install (local, falling back to
global), ensure the models dir, verify both model files, parse the config
and check `sample_rate`, require the `cuda` provider, create the session. -/
def Kokoro.initInner (env : KokoroInitEnv) : Except String Kokoro :=
  match (match env.installLocal with
         | Except.ok _ => Except.ok ()
         | Except.error _ => env.installGlobal) with
  | Except.error e => Except.error e
  | Except.ok _ =>
    match (if env.modelDirExists then Except.ok () else env.mkdirModels) with
    | Except.error e => Except.error e
    | Except.ok _ =>
      if !env.modelFileExists then
        Except.error ("Model file not found: " ++ MODEL_FILE)
      else if !env.configFileExists then
        Except.error ("Model file not found: " ++ CONFIG_FILE)
      else
        match env.readConfig with
        | Except.error e => Except.error e
        | Except.ok config =>
          if !config.hasSampleRate then
            Except.error "Invalid config file: missing sample_rate"
          else
            match env.providers with
            | Except.error e => Except.error e
            | Except.ok provs =>
              if !provs.contains "cuda" then Except.error cudaUnavailableMsg
              else
                match env.createSession with
                | Except.error e => Except.error e
                | Except.ok s => Except.ok ⟨s, config⟩

/-- `Kokoro.init`: the outer catch rewraps any failure message as
`Failed to initialize Kokoro: <original message>`. -/
def Kokoro.init (env : KokoroInitEnv) : Except String Kokoro :=
  match Kokoro.initInner env with
  | Except.ok k => Except.ok k
  | Except.error e => Except.error ("Failed to initialize Kokoro: " ++ e)

/-- `Kokoro.preprocessText`: throws on empty text, otherwise maps each
character to its code as an `int64`. -/
def Kokoro.preprocessText (text : String) : Except String (List ℤ) :=
  if text.length = 0 then Except.error "Input text cannot be empty"
  else Except.ok (text.toList.map fun c => (c.toNat : ℤ))

/-- Clamping-and-scaling of one audio sample:
`Math.min(32767, Math.max(-32768, value * 32767))`. -/
def clampSample (v : ℚ) : ℚ := min 32767 (max (-32768) (v * 32767))

/-- The 16-bit integer actually stored by `view.setInt16` for one sample:
the clamped scaled value, truncated towards zero by the `DataView`
conversion. -/
def sampleToInt16 (v : ℚ) : ℤ := jsTrunc (clampSample v)

/-- The two's-complement unsigned image of a 16-bit value. -/
def uint16OfInt (i : ℤ) : ℕ := (i % 65536).toNat

/-- Little-endian byte pair written for one 16-bit value. -/
def int16Bytes (i : ℤ) : List ℕ := [uint16OfInt i % 256, uint16OfInt i / 256]

/-- Decoding of the 16-bit little-endian signed value at index `i` of a
byte buffer (used only in theorem statements, to read the buffer back). -/
def decodeInt16LE (bytes : List ℕ) (i : ℕ) : ℤ :=
  let u : ℕ := bytes.getD (2 * i) 0 + 256 * bytes.getD (2 * i + 1) 0
  if u < 32768 then (u : ℤ) else (u : ℤ) - 65536

/-- `Kokoro.postprocessAudio`: throws on a missing or empty sample array,
otherwise writes each sample's clamped scaled value as a little-endian
16-bit pair into a buffer of 2 bytes per sample. -/
def Kokoro.postprocessAudio (audioData : Option (List ℚ)) :
    Except String (List ℕ) :=
  match audioData with
  | none => Except.error "Empty audio data received"
  | some samples =>
    if samples.length = 0 then Except.error "Empty audio data received"
    else Except.ok (samples.flatMap fun v => int16Bytes (sampleToInt16 v))

/-- The record returned by a successful `Kokoro.generate`. -/
structure GenResult where
  audio : List ℕ
  audioLength : ℚ
  deriving Repr, DecidableEq

/-- `Kokoro.generate`: preprocess the text, run the session on the input
ids (the oracle `run` returns the `outputs.audio.data` sample array, with
`none` layers for a missing `outputs.audio` or missing `data`), validate,
postprocess, and return the buffer and its duration.  The second component
counts the inference-engine invocations made. -/
def Kokoro.generate (k : Kokoro) (text : String)
    (run : List ℤ → Except String (Option (Option (List ℚ)))) :
    Except String GenResult × ℕ :=
  match Kokoro.preprocessText text with
  | Except.error e => (Except.error e, 0)
  | Except.ok inputIds =>
    match run inputIds with
    | Except.error e => (Except.error e, 1)
    | Except.ok none => (Except.error "Invalid model outputs", 1)
    | Except.ok (some audioData) =>
      match Kokoro.postprocessAudio audioData with
      | Except.error e => (Except.error e, 1)
      | Except.ok buffer =>
        (Except.ok ⟨buffer, (buffer.length : ℚ) / (k.config.sampleRateVal * 2)⟩, 1)

/-! ## Claim theorems -/

/-- C1: in `Remotion.render`, if the GPU `renderMedia` invocation throws,
`renderMedia` is invoked a second time on the same composition and output
location with concurrency `max(1, ⌊concurrency/2⌋)` and half the off-thread
video cache; if the GPU invocation succeeds the fallback never runs. -/
theorem remotion_render_gpu_fallback (r : Remotion) (composition id outputLocation : String)
    (hout : outputLocation = r.config.videosDirPath ++ "/" ++ id ++ ".mp4")
    (renderMedia : RenderCall → Except String Unit) :
    (∀ e, renderMedia (r.gpuRenderCall composition outputLocation) = Except.error e →
      (r.render composition id renderMedia).1
        = [r.gpuRenderCall composition outputLocation,
           r.fallbackCPURender composition outputLocation] ∧
      (r.fallbackCPURender composition outputLocation).composition
        = (r.gpuRenderCall composition outputLocation).composition ∧
      (r.fallbackCPURender composition outputLocation).outputLocation
        = (r.gpuRenderCall composition outputLocation).outputLocation ∧
      (r.fallbackCPURender composition outputLocation).concurrency
        = max 1 (r.config.concurrency / 2) ∧
      (r.fallbackCPURender composition outputLocation).offthreadVideoCacheSizeInBytes
        = r.config.videoCacheSizeInBytes / 2) ∧
    (renderMedia (r.gpuRenderCall composition outputLocation) = Except.ok () →
      (r.render composition id renderMedia).1
        = [r.gpuRenderCall composition outputLocation]) := by
  subst hout
  constructor
  · intro e he
    refine ⟨?_, rfl, rfl, rfl, rfl⟩
    simp [Remotion.render, he]
  · intro hok
    simp [Remotion.render, hok]

/-- Witness for C1: a concrete config whose GPU render fails, producing
exactly the GPU call followed by the CPU fallback call. -/
theorem remotion_render_gpu_fallback_witness :
    (Remotion.render ⟨"bundle", ⟨false, 4, 1000, "videos"⟩⟩ "ShortVideo" "abc"
        (fun _ => Except.error "gpu crash")).1
      = [Remotion.gpuRenderCall ⟨"bundle", ⟨false, 4, 1000, "videos"⟩⟩
           "ShortVideo" "videos/abc.mp4",
         Remotion.fallbackCPURender ⟨"bundle", ⟨false, 4, 1000, "videos"⟩⟩
           "ShortVideo" "videos/abc.mp4"] :=
  ((remotion_render_gpu_fallback ⟨"bundle", ⟨false, 4, 1000, "videos"⟩⟩ "ShortVideo" "abc"
      "videos/abc.mp4" rfl (fun _ => Except.error "gpu crash")).1 "gpu crash" rfl).1

/-- C4 counterexample: with `concurrency = 1` the fallback concurrency is
`max 1 0 = 1`, which is not strictly less than the GPU concurrency. -/
theorem fallback_concurrency_not_reduced_cex :
    ¬ ((Remotion.fallbackCPURender ⟨"bundle", ⟨false, 1, 1000, "videos"⟩⟩
          "ShortVideo" "videos/x.mp4").concurrency
        < (Config.mk false 1 1000 "videos").concurrency) := by
  decide

/-- C4 amended: the fallback concurrency `max(1, ⌊c/2⌋)` is strictly less
than the GPU concurrency `c` whenever `c ≥ 2`; when `c ≤ 1` it equals 1 and
is no reduction. -/
theorem fallback_concurrency_reduced (r : Remotion) (composition outputLocation : String) :
    (2 ≤ r.config.concurrency →
      (r.fallbackCPURender composition outputLocation).concurrency
        < r.config.concurrency) ∧
    (r.config.concurrency ≤ 1 →
      (r.fallbackCPURender composition outputLocation).concurrency = 1) := by
  constructor <;> intro h <;> simp [Remotion.fallbackCPURender] <;> omega

/-- Witness for C4 (amended): concurrency 8 is reduced to 4 < 8, and
concurrency 1 yields a fallback concurrency of exactly 1. -/
theorem fallback_concurrency_reduced_witness :
    (Remotion.fallbackCPURender ⟨"bundle", ⟨false, 8, 1000, "videos"⟩⟩ "c" "o").concurrency
      < (8 : ℕ) ∧
    (Remotion.fallbackCPURender ⟨"bundle", ⟨false, 1, 1000, "videos"⟩⟩ "c" "o").concurrency
      = 1 :=
  ⟨(fallback_concurrency_reduced ⟨"bundle", ⟨false, 8, 1000, "videos"⟩⟩ "c" "o").1
      (by decide),
   (fallback_concurrency_reduced ⟨"bundle", ⟨false, 1, 1000, "videos"⟩⟩ "c" "o").2
      (by decide)⟩

/-- C2 counterexample: a `nvidia-smi` probe error raised inside
`FFMpeg.init` does not propagate — init still resolves with a wrapper
instance in CPU mode. -/
theorem wrapper_error_swallowed_cex :
    FFMpeg.init ⟨Except.ok "ffmpeg-path", Except.error "nvidia-smi failed", Except.ok ""⟩
      = Except.ok ⟨false⟩ := rfl

/-- C2 amended: errors raised in `Whisper.CreateCaption` are rethrown to
the caller, but errors raised in the GPU-setup/probing blocks of
`Remotion.init` and `FFMpeg.init` are logged and swallowed: both inits
still resolve, falling back to CPU mode. -/
theorem wrapper_error_policy (cfg : Config) (renv : RemotionInitEnv)
    (fenv : FFmpegInitEnv) (wenv : WhisperEnv) :
    (∀ e b, renv.gpuSetup = Except.error e → renv.bundleResult = Except.ok b →
      Remotion.init cfg renv = Except.ok ⟨b, cfg⟩) ∧
    (∀ e p, fenv.installerPath = Except.ok p → fenv.nvidiaProbe = Except.error e →
      FFMpeg.init fenv = Except.ok ⟨false⟩) ∧
    (∀ e, wenv.writeScript = Except.error e →
      Whisper.CreateCaption wenv = Except.error e) ∧
    (∀ e, wenv.writeScript = Except.ok () → wenv.execScript = Except.error e →
      Whisper.CreateCaption wenv = Except.error e) := by
  refine ⟨?_, ?_, ?_, ?_⟩
  · intro e b he hb
    by_cases hd : cfg.runningInDocker <;>
      simp [Remotion.init, Remotion.gpuSetupOutcome, hd, he, hb]
  · intro e p hp hn
    simp [FFMpeg.init, FFMpeg.initFlag, hp, hn]
  · intro e hw
    simp [Whisper.CreateCaption, hw]
  · intro e hw hx
    simp [Whisper.CreateCaption, hw, hx]

/-- Witness for C2 (amended): a concrete failing nvidia probe is swallowed
by `FFMpeg.init`. -/
theorem wrapper_error_policy_witness :
    FFMpeg.init ⟨Except.ok "/usr/local/bin/ffmpeg", Except.error "probe crashed",
        Except.ok ""⟩
      = Except.ok ⟨false⟩ :=
  (wrapper_error_policy ⟨false, 1, 1, ""⟩ ⟨Except.ok (), Except.ok ""⟩
      ⟨Except.ok "/usr/local/bin/ffmpeg", Except.error "probe crashed", Except.ok ""⟩
      ⟨Except.ok (), Except.ok []⟩).2.1
    "probe crashed" "/usr/local/bin/ffmpeg" rfl rfl

/-- C5: evaluation of `FFMpeg.init` at the failing input — the nvidia
probe reports a T4 GPU, then the codecs probe throws; the catch block logs
"using CPU" yet the `gpuAccelerated` flag remains `true`. -/
theorem ffmpeg_gpu_flag_true_after_probe_crash :
    FFMpeg.init ⟨Except.ok "ffmpeg-path", Except.ok "Tesla T4",
        Except.error "ffmpeg -codecs crashed"⟩
      = Except.ok ⟨true⟩ := rfl

/-- C6: `saveNormalizedAudio` resolves with exactly its `outputPath`
argument and `saveToMp3` with exactly its `filePath` argument when the
engine succeeds; on an engine error each rejects with that error. -/
theorem ffmpeg_save_resolves_with_path (f : FFMpeg) (outputPath filePath : String)
    (engine : AudioCommand → String → Except String Unit) :
    (engine f.normalizeCommand outputPath = Except.ok () →
      f.saveNormalizedAudio outputPath engine = Except.ok outputPath) ∧
    (∀ e, engine f.normalizeCommand outputPath = Except.error e →
      f.saveNormalizedAudio outputPath engine = Except.error e) ∧
    (engine f.mp3Command filePath = Except.ok () →
      f.saveToMp3 filePath engine = Except.ok filePath) ∧
    (∀ e, engine f.mp3Command filePath = Except.error e →
      f.saveToMp3 filePath engine = Except.error e) := by
  refine ⟨fun h => ?_, fun e h => ?_, fun h => ?_, fun e h => ?_⟩ <;>
    simp [FFMpeg.saveNormalizedAudio, FFMpeg.saveToMp3, h]

/-- Witness for C6: with an always-succeeding engine both methods resolve
with their path arguments. -/
theorem ffmpeg_save_resolves_with_path_witness :
    FFMpeg.saveNormalizedAudio ⟨false⟩ "out.wav" (fun _ _ => Except.ok ())
      = Except.ok "out.wav" ∧
    FFMpeg.saveToMp3 ⟨false⟩ "out.mp3" (fun _ _ => Except.ok ())
      = Except.ok "out.mp3" :=
  ⟨(ffmpeg_save_resolves_with_path ⟨false⟩ "out.wav" "out.mp3"
      (fun _ _ => Except.ok ())).1 rfl,
   (ffmpeg_save_resolves_with_path ⟨false⟩ "out.wav" "out.mp3"
      (fun _ _ => Except.ok ())).2.2.1 rfl⟩

/-- C3: when the script runs successfully, `Whisper.CreateCaption` returns
one caption per word, in order, with the text unchanged and the start/end
times rounded by `Math.round`. -/
theorem whisper_createCaption_maps_words (env : WhisperEnv) (words : List Word)
    (hw : env.writeScript = Except.ok ()) (he : env.execScript = Except.ok words) :
    Whisper.CreateCaption env = Except.ok (words.map wordToCaption) ∧
    (words.map wordToCaption).length = words.length ∧
    ∀ i (h : i < words.length),
      ((words.map wordToCaption).get ⟨i, by simpa using h⟩).text
        = (words.get ⟨i, h⟩).text ∧
      ((words.map wordToCaption).get ⟨i, by simpa using h⟩).startMs
        = jsRound (words.get ⟨i, h⟩).start ∧
      ((words.map wordToCaption).get ⟨i, by simpa using h⟩).endMs
        = jsRound (words.get ⟨i, h⟩).«end» := by
  refine ⟨by simp [Whisper.CreateCaption, hw, he], by simp, ?_⟩
  intro i h
  simp [List.get_eq_getElem, List.getElem_map, wordToCaption]

/-- Witness for C3: a concrete one-word transcription is mapped to its
caption. -/
theorem whisper_createCaption_maps_words_witness :
    Whisper.CreateCaption ⟨Except.ok (), Except.ok [⟨"hi", 3/2, 5/2⟩]⟩
      = Except.ok ([⟨"hi", 3/2, 5/2⟩].map wordToCaption) :=
  (whisper_createCaption_maps_words ⟨Except.ok (), Except.ok [⟨"hi", 3/2, 5/2⟩]⟩
      [⟨"hi", 3/2, 5/2⟩] rfl rfl).1

/-- Helper: a successful `Kokoro.initInner` implies every GPU/setup probe
succeeded. -/
theorem kokoro_initInner_ok_probes (env : KokoroInitEnv) (k : Kokoro)
    (h : Kokoro.initInner env = Except.ok k) :
    env.modelFileExists = true ∧ env.configFileExists = true ∧
    (∃ c, env.readConfig = Except.ok c ∧ c.hasSampleRate = true) ∧
    (∃ p, env.providers = Except.ok p ∧ "cuda" ∈ p) := by
  unfold Kokoro.initInner at h
  repeat' split at h
  all_goals simp_all

/-- C7: `Kokoro.init` returns an instance only when the model files exist,
the parsed config has a truthy `sample_rate` and `cuda` is among the ONNX
providers; when any of these probes fails, init throws the original
failure message wrapped as `Failed to initialize Kokoro: ...`. -/
theorem kokoro_init_gpu_probes (env : KokoroInitEnv) :
    (∀ k, Kokoro.init env = Except.ok k →
      env.modelFileExists = true ∧ env.configFileExists = true ∧
      (∃ c, env.readConfig = Except.ok c ∧ c.hasSampleRate = true) ∧
      (∃ p, env.providers = Except.ok p ∧ "cuda" ∈ p)) ∧
    ((env.modelFileExists = false ∨ env.configFileExists = false ∨
      (∀ c, env.readConfig = Except.ok c → c.hasSampleRate = false) ∨
      (∀ p, env.providers = Except.ok p → "cuda" ∉ p)) →
      ∃ orig, Kokoro.init env = Except.error ("Failed to initialize Kokoro: " ++ orig)) := by
  constructor
  · intro k hk
    unfold Kokoro.init at hk
    cases hinner : Kokoro.initInner env with
    | ok k2 => exact kokoro_initInner_ok_probes env k2 hinner
    | error e => rw [hinner] at hk; exact absurd hk (by simp)
  · intro hfail
    cases hinner : Kokoro.initInner env with
    | ok k2 =>
      obtain ⟨h1, h2, ⟨c, hc, hcs⟩, ⟨p, hp, hpc⟩⟩ :=
        kokoro_initInner_ok_probes env k2 hinner
      rcases hfail with hf | hf | hf | hf
      · rw [h1] at hf; exact absurd hf (by simp)
      · rw [h2] at hf; exact absurd hf (by simp)
      · rw [hf c hc] at hcs; exact absurd hcs (by simp)
      · exact absurd hpc (hf p hp)
    | error e =>
      exact ⟨e, by unfold Kokoro.init; rw [hinner]⟩

/-- Witness for C7: a fully healthy environment yields an instance, and
its probes indeed all succeeded. -/
theorem kokoro_init_gpu_probes_witness :
    (⟨Except.ok (), Except.ok (), true, Except.ok (), true, true,
      Except.ok ⟨some 24000⟩, Except.ok ["cuda"], Except.ok 7⟩ :
        KokoroInitEnv).modelFileExists = true :=
  ((kokoro_init_gpu_probes
      ⟨Except.ok (), Except.ok (), true, Except.ok (), true, true,
       Except.ok ⟨some 24000⟩, Except.ok ["cuda"], Except.ok 7⟩).1
    ⟨7, ⟨some 24000⟩⟩ (by rfl)).1

/-- C8: `Kokoro.generate` on empty text throws `Input text cannot be
empty` from preprocessing, with zero inference-engine invocations (the
session is never run, so its state is untouched). -/
theorem kokoro_generate_empty_text_throws (k : Kokoro)
    (run : List ℤ → Except String (Option (Option (List ℚ))))
    (text : String) (h : text.length = 0) :
    Kokoro.generate k text run = (Except.error "Input text cannot be empty", 0) := by
  simp [Kokoro.generate, Kokoro.preprocessText, h]

/-- Witness for C8: the empty string makes `generate` throw before any
engine call. -/
theorem kokoro_generate_empty_text_throws_witness :
    Kokoro.generate ⟨0, ⟨some 24000⟩⟩ ""
        (fun _ => Except.ok (some (some [1])))
      = (Except.error "Input text cannot be empty", 0) :=
  kokoro_generate_empty_text_throws ⟨0, ⟨some 24000⟩⟩
    (fun _ => Except.ok (some (some [1]))) "" rfl

/-- C10: every successful `Kokoro.generate` returns an `audioLength` equal
to the audio buffer's byte length divided by `sample_rate * 2`. -/
theorem kokoro_generate_audioLength (k : Kokoro) (text : String)
    (run : List ℤ → Except String (Option (Option (List ℚ))))
    (res : GenResult) (n : ℕ)
    (h : Kokoro.generate k text run = (Except.ok res, n)) :
    res.audioLength = (res.audio.length : ℚ) / (k.config.sampleRateVal * 2) := by
  unfold Kokoro.generate at h
  repeat' split at h
  all_goals simp_all
  obtain ⟨h1, h2⟩ := h
  subst h1
  rfl

/-- Witness for C10: a one-sample generation has `audioLength` equal to
its 2-byte buffer over `sample_rate * 2`. -/
theorem kokoro_generate_audioLength_witness :
    (⟨[0, 0], 1⟩ : GenResult).audioLength
      = ((⟨[0, 0], 1⟩ : GenResult).audio.length : ℚ)
        / ((⟨0, ⟨some 1⟩⟩ : Kokoro).config.sampleRateVal * 2) :=
  kokoro_generate_audioLength ⟨0, ⟨some 1⟩⟩ "a"
    (fun _ => Except.ok (some (some [0]))) ⟨[0, 0], 1⟩ 1 (by
      simp +decide [Kokoro.generate, Kokoro.preprocessText, Kokoro.postprocessAudio,
        sampleToInt16, clampSample, jsTrunc, int16Bytes, uint16OfInt,
        KConfig.sampleRateVal])

/-- Helper: the stored 16-bit sample value always lies in
`[-32768, 32767]`. -/
theorem sampleToInt16_bounds (v : ℚ) :
    -32768 ≤ sampleToInt16 v ∧ sampleToInt16 v ≤ 32767 := by
  have hub : clampSample v ≤ 32767 := min_le_left _ _
  have hlb : (-32768 : ℚ) ≤ clampSample v :=
    le_min (by norm_num) (le_max_left _ _)
  unfold sampleToInt16 jsTrunc
  split
  · constructor
    · exact Int.le_floor.mpr (by exact_mod_cast hlb)
    · calc ⌊clampSample v⌋ ≤ ⌊(32767 : ℚ)⌋ := Int.floor_le_floor hub
        _ = 32767 := by norm_num
  · constructor
    · calc (-32768 : ℤ) = ⌈(-32768 : ℚ)⌉ := by
            rw [show (-32768 : ℚ) = ((-32768 : ℤ) : ℚ) by norm_num, Int.ceil_intCast]
        _ ≤ ⌈clampSample v⌉ := Int.ceil_le_ceil hlb
    · have hneg : clampSample v ≤ 0 := le_of_not_le (by assumption)
      calc ⌈clampSample v⌉ ≤ ⌈(0 : ℚ)⌉ := Int.ceil_le_ceil hneg
        _ ≤ 32767 := by norm_num

/-- Helper: decoding the two's-complement unsigned image of a 16-bit value
recovers the value. -/
theorem uint16_decode (i : ℤ) (h1 : -32768 ≤ i) (h2 : i ≤ 32767) :
    (if uint16OfInt i < 32768 then (uint16OfInt i : ℤ)
     else (uint16OfInt i : ℤ) - 65536) = i := by
  unfold uint16OfInt
  split <;> omega

/-- Helper: the sample buffer holds exactly 2 bytes per sample. -/
theorem flat2_length (l : List ℚ) :
    (l.flatMap fun v => int16Bytes (sampleToInt16 v)).length = 2 * l.length := by
  induction l with
  | nil => rfl
  | cons v t ih =>
    rw [List.flatMap_cons, List.length_append, ih]
    have h2 : (int16Bytes (sampleToInt16 v)).length = 2 := rfl
    rw [h2, List.length_cons]
    omega

/-- Helper: the bytes at positions `2i` and `2i + 1` of the sample buffer
are the little-endian pair of the `i`-th sample's 16-bit value. -/
theorem flat2_getD (l : List ℚ) (i : ℕ) (hi : i < l.length) :
    (l.flatMap fun v => int16Bytes (sampleToInt16 v)).getD (2 * i) 0
      = uint16OfInt (sampleToInt16 (l.get ⟨i, hi⟩)) % 256 ∧
    (l.flatMap fun v => int16Bytes (sampleToInt16 v)).getD (2 * i + 1) 0
      = uint16OfInt (sampleToInt16 (l.get ⟨i, hi⟩)) / 256 := by
  induction l generalizing i with
  | nil => exact absurd hi (by simp)
  | cons v t ih =>
    cases i with
    | zero =>
      constructor <;> simp [List.flatMap_cons, int16Bytes]
    | succ j =>
      have hj : j < t.length := by simpa using hi
      obtain ⟨ih1, ih2⟩ := ih j hj
      have hlen : (int16Bytes (sampleToInt16 v)).length = 2 := rfl
      constructor
      · rw [List.flatMap_cons, List.getD_append_right _ _ _ _ (by rw [hlen]; omega),
          hlen]
        have hidx : 2 * (j + 1) - 2 = 2 * j := by omega
        rw [hidx, ih1]
        simp
      · rw [List.flatMap_cons, List.getD_append_right _ _ _ _ (by rw [hlen]; omega),
          hlen]
        have hidx : 2 * (j + 1) + 1 - 2 = 2 * j + 1 := by omega
        rw [hidx, ih2]
        simp

/-- C9: for a non-empty sample array, `Kokoro.postprocessAudio` returns a
buffer of exactly 2 bytes per sample whose `i`-th little-endian 16-bit
value is the `i`-th sample scaled by 32767 and clamped into
`[-32768, 32767]` (then truncated to an integer by the `DataView` write);
a missing or empty sample array makes it throw. -/
theorem kokoro_postprocessAudio_pcm (samples : List ℚ) (hne : samples ≠ []) :
    Kokoro.postprocessAudio (some samples)
      = Except.ok (samples.flatMap fun v => int16Bytes (sampleToInt16 v)) ∧
    (samples.flatMap fun v => int16Bytes (sampleToInt16 v)).length
      = 2 * samples.length ∧
    (∀ i (hi : i < samples.length),
      decodeInt16LE (samples.flatMap fun v => int16Bytes (sampleToInt16 v)) i
        = sampleToInt16 (samples.get ⟨i, hi⟩) ∧
      -32768 ≤ sampleToInt16 (samples.get ⟨i, hi⟩) ∧
      sampleToInt16 (samples.get ⟨i, hi⟩) ≤ 32767) ∧
    Kokoro.postprocessAudio none = Except.error "Empty audio data received" ∧
    Kokoro.postprocessAudio (some []) = Except.error "Empty audio data received" := by
  refine ⟨?_, flat2_length samples, ?_, rfl, rfl⟩
  · have hlen : samples.length ≠ 0 := fun h => hne (List.length_eq_zero.mp h)
    simp [Kokoro.postprocessAudio, hlen]
  · intro i hi
    obtain ⟨hb1, hb2⟩ := flat2_getD samples i hi
    refine ⟨?_, (sampleToInt16_bounds _).1, (sampleToInt16_bounds _).2⟩
    simp only [decodeInt16LE, hb1, hb2, Nat.mod_add_div]
    exact uint16_decode _ (sampleToInt16_bounds _).1 (sampleToInt16_bounds _).2

/-- Witness for C9: the one-sample array `[1]` is encoded into its 2-byte
buffer. -/
theorem kokoro_postprocessAudio_pcm_witness :
    Kokoro.postprocessAudio (some [1])
      = Except.ok ([1].flatMap fun v => int16Bytes (sampleToInt16 v)) :=
  (kokoro_postprocessAudio_pcm [1] (List.cons_ne_nil 1 [])).1

end SVM
